import Mathlib

/-!
Shallow embedding of the sessao-lang crate (crates/sessao-lang/src), the
front end of the Sessao protocol definition language: source location
spans (span.rs), error values (error.rs), the lexer (lexer.rs), AST types
(ast.rs), the parser (parser.rs) and the public entry points (lib.rs).
Rust usize values are modelled as Nat; Rust Result as Except; a Rust
panic (the todo macro) is modelled by an explicit outcome type.
Keyword clashes force a few renames, noted at each declaration.
-/

/-- Span from span.rs: a range in the source code. Field names follow the
Rust struct; the Rust field end is written with guillemets because end is
reserved in Lean. -/
structure Span where
  /-- Start byte offset -/
  start : Nat
  /-- End byte offset (exclusive) -/
  «end» : Nat
  /-- Line number (1-indexed) -/
  line : Nat
  /-- Column number (1-indexed) -/
  column : Nat
deriving DecidableEq

/-- SourceSpan is the external miette type, modelled by its two
components: a byte offset and a length. -/
structure SourceSpan where
  offset : Nat
  length : Nat
deriving DecidableEq

/-- From Span for SourceSpan impl in span.rs: offset is span.start, length
is span.end.saturating_sub(span.start). Nat subtraction in Lean is
truncated at zero, which is exactly saturating_sub on usize. -/
def spanToSourceSpan (span : Span) : SourceSpan :=
  { offset := span.start, length := span.«end» - span.start }

/-- Span.new from span.rs. -/
def Span.new (start «end» line column : Nat) : Span :=
  { start := start, «end» := «end», line := line, column := column }

/-- Span.dummy from span.rs: a dummy span for testing, all fields zero. -/
def Span.dummy : Span :=
  { start := 0, «end» := 0, line := 0, column := 0 }

/-- Span.merge from span.rs: merge two spans into one that covers both. -/
def Span.merge (self other : Span) : Span :=
  { start := Nat.min self.start other.start
    «end» := Nat.max self.«end» other.«end»
    line := Nat.min self.line other.line
    column := if self.line ≤ other.line then self.column else other.column }

/-- Span.len from span.rs: end - start on usize. Underflow of usize
subtraction is a panic in debug builds, so the subtraction is modelled as
checked: none models the underflow panic, some the normal result. -/
def Span.len (self : Span) : Option Nat :=
  if self.start ≤ self.«end» then some (self.«end» - self.start) else none

/-- Span.is_empty from span.rs. -/
def Span.is_empty (self : Span) : Bool :=
  self.start == self.«end»

/-- Error from error.rs: errors during parsing and analysis. Rust variant
names are kept except Syntax and Type, which are reserved words in Lean
and appear here as SyntaxErr and TypeErr. The NotImplemented and Internal
variants carry only a message string, no span. -/
inductive Error where
  /-- Rust variant Syntax: a syntax error with message and span. -/
  | SyntaxErr (message : String) (span : Span)
  /-- Rust variant UnexpectedToken: expected, found, span. -/
  | UnexpectedToken (expected found : String) (span : Span)
  /-- Rust variant Undefined: kind, name, span. -/
  | Undefined (kind name : String) (span : Span)
  /-- Rust variant Duplicate: kind, name, span. -/
  | Duplicate (kind name : String) (span : Span)
  /-- Rust variant Type: a type error with message and span. -/
  | TypeErr (message : String) (span : Span)
  /-- Rust variant NotImplemented: feature not yet implemented. -/
  | NotImplemented (msg : String)
  /-- Rust variant Internal: internal compiler error. -/
  | Internal (msg : String)
deriving DecidableEq

/-- Observation function: the span carried by an Error value, if any.
Every variant of the Rust enum with a span field yields it; the two
message-only variants yield none. -/
def errorSpan : Error → Option Span
  | Error.SyntaxErr _ span => some span
  | Error.UnexpectedToken _ _ span => some span
  | Error.Undefined _ _ span => some span
  | Error.Duplicate _ _ span => some span
  | Error.TypeErr _ span => some span
  | Error.NotImplemented _ => none
  | Error.Internal _ => none

/-- Observation function: whether an Error is a syntax diagnostic in the
sense of the spec, that is of kind Syntax or UnexpectedToken. -/
def isSyntaxDiagnostic : Error → Bool
  | Error.SyntaxErr _ _ => true
  | Error.UnexpectedToken _ _ _ => true
  | _ => false

/-- TokenKind from lexer.rs. The Rust variant Type is reserved in Lean and
appears here as KwType; all other variant names are kept. -/
inductive TokenKind where
  | Protocol | Roles | Phase | Choice | Match | Continue | End | When
  | Parallel | Reliable | Unreliable
  /-- Rust variant Type: the type keyword. -/
  | KwType
  | True | False
  | Arrow | FatArrow | Colon | Comma | Dot | At | Question
  | LBrace | RBrace | LBracket | RBracket | LParen | RParen
  | Ident | String | Integer | Float
  | Eof | Error
deriving DecidableEq

/-- Token from lexer.rs: kind, span and text. -/
structure Token where
  kind : TokenKind
  span : Span
  text : String
deriving DecidableEq

/-- Lexer from lexer.rs: the source plus the current position, line and
column. The Rust struct borrows the source text; here it is carried by
value. -/
structure Lexer where
  source : String
  position : Nat
  line : Nat
  column : Nat

/-- Lexer.new from lexer.rs: position 0, line 1, column 1. -/
def Lexer.new (source : String) : Lexer :=
  { source := source, position := 0, line := 1, column := 1 }

/-- Lexer.is_at_end from lexer.rs: position at or past source.len(), the
UTF-8 byte length of the source. -/
def Lexer.is_at_end (self : Lexer) : Bool :=
  decide (self.source.utf8ByteSize ≤ self.position)

/-- Lexer.current_span from lexer.rs: a zero-length span at the current
position with the current line and column. -/
def Lexer.current_span (self : Lexer) : Span :=
  Span.new self.position self.position self.line self.column

/-- Lexer.skip_whitespace_and_comments from lexer.rs: the body is a TODO
stub, so the lexer state is unchanged. -/
def Lexer.skip_whitespace_and_comments (self : Lexer) : Lexer :=
  self

/-- Lexer.next_token from lexer.rs: skip whitespace and comments, return
an Eof token with the current zero-length span when at end of input;
otherwise the body is a TODO stub returning Error.NotImplemented. Rust
mutates the lexer in place; here the updated lexer is returned alongside
the token. -/
def Lexer.next_token (self : Lexer) : Except Error (Token × Lexer) :=
  let self := self.skip_whitespace_and_comments
  if self.is_at_end then
    Except.ok ({ kind := TokenKind.Eof, span := self.current_span, text := "" }, self)
  else
    Except.error (Error.NotImplemented "Lexer not yet implemented")

/-- Loop body of Lexer.tokenize from lexer.rs: repeatedly take the next
token, push it, and stop after pushing an Eof token. The Rust loop has no
structural decrease (it stops only on Eof or on an error), so it is
modelled with an explicit fuel bound; exhausted fuel is mapped to an
Internal error and is never reached at the fuel tokenize supplies, since
the stub next_token yields Eof or an error on its first call. -/
def tokenizeFuel : Nat → Lexer → List Token → Except Error (List Token)
  | 0, _, _ => Except.error (Error.Internal "tokenize loop fuel exhausted")
  | Nat.succ fuel, lexer, tokens =>
    match lexer.next_token with
    | Except.error e => Except.error e
    | Except.ok (token, lexer) =>
      if token.kind = TokenKind.Eof then Except.ok (tokens ++ [token])
      else tokenizeFuel fuel lexer (tokens ++ [token])

/-- Lexer.tokenize from lexer.rs: tokenize the entire source into a list
of tokens, starting from a fresh lexer. -/
def tokenize (source : String) : Except Error (List Token) :=
  tokenizeFuel (source.utf8ByteSize + 1) (Lexer.new source) []

/-- PrimitiveType from ast.rs: the built-in scalar kinds. -/
inductive PrimitiveType where
  | Bool | U8 | U16 | U32 | U64 | I8 | I16 | I32 | I64
  | F32 | F64 | String | Uuid | Timestamp | Bytes
deriving DecidableEq

/-- Ty is the Rust enum Type from ast.rs (Type is reserved in Lean): a
type expression. -/
inductive Ty where
  | Primitive (p : PrimitiveType)
  | Array (elem : Ty)
  | Map (key value : Ty)
  | Optional (inner : Ty)
  | Named (name : String)

/-- FieldDef is the Rust struct Field from ast.rs (Field names the
Mathlib algebra class): a field in a struct or message. -/
structure FieldDef where
  name : String
  span : Span
  ty : Ty
  optional : Bool

/-- EnumVariant from ast.rs. -/
structure EnumVariant where
  name : String
  span : Span
  fields : List FieldDef

/-- TypeBody from ast.rs: the body of a type definition. -/
inductive TypeBody where
  | Struct (fields : List FieldDef)
  | Enum (variants : List EnumVariant)
  | Alias (ty : Ty)

/-- TypeDef from ast.rs. -/
structure TypeDef where
  name : String
  span : Span
  body : TypeBody

/-- Role from ast.rs. -/
structure Role where
  name : String
  span : Span

/-- SendStatement from ast.rs. -/
structure SendStatement where
  span : Span
  from_role : String
  to_role : String
  message : String
  fields : List FieldDef

/-- Guard from ast.rs. -/
structure Guard where
  span : Span
  role : String
  condition : String

/-- ContinueStatement from ast.rs. -/
structure ContinueStatement where
  span : Span
  target : String

/-- ParallelStatement from ast.rs. -/
structure ParallelStatement where
  span : Span
  branches : List String

mutual

/-- Statement from ast.rs: a statement within a phase. The Rust variants
carrying a struct are modelled with that struct as payload. -/
inductive Statement where
  | Send (s : SendStatement)
  | Choice (c : ChoiceStatement)
  | Match (m : MatchStatement)
  | Continue (c : ContinueStatement)
  | End (span : Span)
  | Parallel (p : ParallelStatement)
  | Reliable (body : List Statement)
  | Unreliable (body : List Statement)

/-- ChoiceStatement from ast.rs: span, deciding role, branches. -/
inductive ChoiceStatement where
  | mk (span : Span) (role : String) (branches : List ChoiceBranch)

/-- ChoiceBranch from ast.rs: name, span, optional guard, body. -/
inductive ChoiceBranch where
  | mk (name : String) (span : Span) (guard : Option Guard) (body : List Statement)

/-- MatchStatement from ast.rs: span, matched expression, arms. -/
inductive MatchStatement where
  | mk (span : Span) (expr : String) (arms : List MatchArm)

/-- MatchArm from ast.rs: pattern, span, body. -/
inductive MatchArm where
  | mk (pattern : String) (span : Span) (body : List Statement)

end

/-- Phase from ast.rs. -/
structure Phase where
  name : String
  span : Span
  body : List Statement

/-- Protocol from ast.rs: the root AST entity. -/
structure Protocol where
  name : String
  span : Span
  roles : List Role
  types : List TypeDef
  phases : List Phase

/-- Parser from parser.rs: the token list and a position. -/
structure Parser where
  tokens : List Token
  position : Nat

/-- Parser.new from parser.rs. -/
def Parser.new (tokens : List Token) : Parser :=
  { tokens := tokens, position := 0 }

/-- Parser.parse from parser.rs: the body is a TODO stub returning
Error.NotImplemented for every parser state, without reading the tokens. -/
def Parser.parse (_self : Parser) : Except Error Protocol :=
  Except.error (Error.NotImplemented "Parser not yet implemented")

/-- Outcome of a Rust call that may panic: panicked carries the panic
message, value the normal return value. -/
inductive RustOutcome (α : Type) where
  | panicked (msg : String)
  | value (v : α)

/-- The function parse from lib.rs: its body is the todo macro with
message Implement parser, which panics unconditionally with the prefix
which the todo macro adds. -/
def parse (_source : String) : RustOutcome (Except Error Protocol) :=
  RustOutcome.panicked "not yet implemented: Implement parser"

/-- The function parse_and_validate from lib.rs: its body is the todo
macro with message Implement parser and semantic analysis, which panics
unconditionally. -/
def parse_and_validate (_source : String) : RustOutcome (Except Error Protocol) :=
  RustOutcome.panicked "not yet implemented: Implement parser and semantic analysis"

/-- Concrete scenario A of the spec: roles Client and Server, one phase
Main with a Ping, a Pong and end. Braces are written as hex escapes. -/
def scenarioSourceA : String :=
  "protocol Hello \x7b\n    roles Client, Server\n    phase Main \x7b\n        Client -> Server: Ping\n        Server -> Client: Pong\n        end\n    \x7d\n\x7d\n"

/-! Helper lemma shared by the lexer theorems. -/

/-- Closed form of tokenize over the stub lexer: an empty source yields a
single Eof token with a zero-length span at offset 0, line 1, column 1;
any non-empty source hits the unimplemented branch of next_token on the
first iteration of the loop. -/
theorem tokenize_eq (src : String) :
    tokenize src =
      if src.utf8ByteSize = 0 then
        Except.ok [{ kind := TokenKind.Eof,
                     span := { start := 0, «end» := 0, line := 1, column := 1 },
                     text := "" }]
      else Except.error (Error.NotImplemented "Lexer not yet implemented") := by
  by_cases h : src.utf8ByteSize = 0 <;>
    simp [tokenize, tokenizeFuel, Lexer.next_token, Lexer.skip_whitespace_and_comments,
      Lexer.is_at_end, Lexer.new, Lexer.current_span, Span.new, Nat.le_zero, h]

/-! Theorems about the claims. -/

/-- Claim C1, counterexample: on two spans lying on the same line with
columns 5 and 2, merge keeps column 5, the column of its first argument,
not the lesser column 2 that the claim requires for same-line merges. -/
theorem merge_column_counterexample :
    ¬ (Span.merge ⟨0, 10, 1, 5⟩ ⟨2, 3, 1, 2⟩).column = Nat.min 5 2 := by decide

/-- Claim C1, amended: Span.merge returns the smallest covering range
(start is the minimum of the two starts, end the maximum of the two ends)
and the minimum of the two lines; the merged column is the first span
column whenever the first line is at most the second line, otherwise the
second span column — so on equal lines it is always the first argument
column, not necessarily the lesser of the two columns. -/
theorem merge_smallest_cover_column_rule (a b : Span) :
    Span.merge a b =
      { start := Nat.min a.start b.start
        «end» := Nat.max a.«end» b.«end»
        line := Nat.min a.line b.line
        column := if a.line ≤ b.line then a.column else b.column } := rfl

/-- Claim C2: the public entry point parse_and_validate is an
unconditional todo panic, so on the concrete scenario A source it panics
instead of returning a Protocol with zero diagnostics. -/
theorem parse_and_validate_scenarioA_panics :
    parse_and_validate scenarioSourceA =
      RustOutcome.panicked "not yet implemented: Implement parser and semantic analysis" := rfl

/-- Claim C3, counterexample: the public operation tokenize, applied to
the one-character source x, returns the NotImplemented error, a variant
that carries no span. -/
theorem error_without_span_reachable :
    tokenize "x" = Except.error (Error.NotImplemented "Lexer not yet implemented") ∧
    errorSpan (Error.NotImplemented "Lexer not yet implemented") = none := by
  refine ⟨?_, rfl⟩
  rw [tokenize_eq, if_neg (by decide)]

/-- Claim C3, amended: every Error value either carries a span (the
Syntax, UnexpectedToken, Undefined, Duplicate and Type variants all do)
or is one of the two message-only variants NotImplemented and Internal,
which carry none. -/
theorem error_span_partition (e : Error) :
    (errorSpan e).isSome = true ∨
    (∃ m, e = Error.NotImplemented m) ∨ (∃ m, e = Error.Internal m) := by
  cases e <;> simp [errorSpan]

/-- Claim C4: Parser.parse is a stub: on a fresh parser over the empty
token list it returns the NotImplemented error, which is not a syntax
diagnostic (neither the Syntax kind nor the UnexpectedToken kind),
contrary to the claim that parse fails only with a syntax diagnostic. -/
theorem parser_parse_not_implemented_kind :
    Parser.parse (Parser.new []) =
      Except.error (Error.NotImplemented "Parser not yet implemented") ∧
    isSyntaxDiagnostic (Error.NotImplemented "Parser not yet implemented") = false :=
  ⟨rfl, rfl⟩

/-- Claim C5: whenever tokenize succeeds, the returned token list is
non-empty, its last token has kind Eof with a zero-length span positioned
at the final byte position of the input, and no token before the last has
kind Eof. -/
theorem tokenize_eof_terminated (src : String) (toks : List Token)
    (h : tokenize src = Except.ok toks) :
    ∃ pre lastTok, toks = pre ++ [lastTok] ∧
      lastTok.kind = TokenKind.Eof ∧
      lastTok.span.start = src.utf8ByteSize ∧
      lastTok.span.«end» = src.utf8ByteSize ∧
      ∀ t ∈ pre, t.kind ≠ TokenKind.Eof := by
  rw [tokenize_eq] at h
  by_cases h0 : src.utf8ByteSize = 0
  · rw [if_pos h0] at h
    injection h with h
    subst h
    exact ⟨[], _, rfl, rfl, by simp [h0], by simp [h0], by simp⟩
  · rw [if_neg h0] at h
    exact absurd h (by simp)

/-- Claim C5, witness at the empty source, where tokenize succeeds with
exactly one Eof token. -/
theorem tokenize_eof_terminated_witness :
    ∃ pre lastTok,
      ([{ kind := TokenKind.Eof,
          span := { start := 0, «end» := 0, line := 1, column := 1 },
          text := "" }] : List Token) = pre ++ [lastTok] ∧
      lastTok.kind = TokenKind.Eof ∧
      lastTok.span.start = ("" : String).utf8ByteSize ∧
      lastTok.span.«end» = ("" : String).utf8ByteSize ∧
      ∀ t ∈ pre, t.kind ≠ TokenKind.Eof :=
  tokenize_eof_terminated ""
    [{ kind := TokenKind.Eof,
       span := { start := 0, «end» := 0, line := 1, column := 1 },
       text := "" }] rfl

/-- Claim C6: Span.merge preserves the span invariant: when both inputs
satisfy start ≤ end, so does the merged span. -/
theorem merge_preserves_span_invariant (a b : Span)
    (ha : a.start ≤ a.«end») (hb : b.start ≤ b.«end») :
    (Span.merge a b).start ≤ (Span.merge a b).«end» := by
  simp [Span.merge]
  omega

/-- Claim C6, witness at two concrete ordered spans. -/
theorem merge_preserves_span_invariant_witness :
    (Span.merge ⟨0, 1, 1, 1⟩ ⟨2, 5, 2, 3⟩).start ≤
      (Span.merge ⟨0, 1, 1, 1⟩ ⟨2, 5, 2, 3⟩).«end» :=
  merge_preserves_span_invariant ⟨0, 1, 1, 1⟩ ⟨2, 5, 2, 3⟩ (by decide) (by decide)

/-- Claim C7, counterexample: Span.dummy, a public constructor of the
crate, returns a span with line 0 and column 0, violating the claimed
1-indexing of line and column. -/
theorem dummy_span_not_one_indexed :
    ¬ (1 ≤ Span.dummy.line ∧ 1 ≤ Span.dummy.column) := by decide

/-- Claim C7, amended: every span carried by a token returned by a
successful tokenize has line at least 1 and column at least 1 (the lexer
starts at line 1, column 1); Span.dummy, by contrast, has line 0 and
column 0. -/
theorem tokenize_spans_one_indexed (src : String) (toks : List Token)
    (h : tokenize src = Except.ok toks) :
    ∀ t ∈ toks, 1 ≤ t.span.line ∧ 1 ≤ t.span.column := by
  rw [tokenize_eq] at h
  by_cases h0 : src.utf8ByteSize = 0
  · rw [if_pos h0] at h
    injection h with h
    subst h
    simp
  · rw [if_neg h0] at h
    exact absurd h (by simp)

/-- Claim C7, witness at the empty source and the single Eof token that
tokenize returns for it. -/
theorem tokenize_spans_one_indexed_witness :
    1 ≤ ({ kind := TokenKind.Eof,
           span := { start := 0, «end» := 0, line := 1, column := 1 },
           text := "" } : Token).span.line ∧
    1 ≤ ({ kind := TokenKind.Eof,
           span := { start := 0, «end» := 0, line := 1, column := 1 },
           text := "" } : Token).span.column :=
  tokenize_spans_one_indexed ""
    [{ kind := TokenKind.Eof,
       span := { start := 0, «end» := 0, line := 1, column := 1 },
       text := "" }] rfl
    { kind := TokenKind.Eof,
      span := { start := 0, «end» := 0, line := 1, column := 1 },
      text := "" } (by simp)

/-- Claim C8: lexing and parsing are deterministic functions of their
input: equal source texts tokenize to equal results and equal parser
states parse to equal results. In this embedding both operations are pure
functions of their arguments, which is faithful to the Rust code, which
performs no input or output and reads no shared mutable state. -/
theorem frontend_deterministic (s₁ s₂ : String) (p₁ p₂ : Parser)
    (hs : s₁ = s₂) (hp : p₁ = p₂) :
    tokenize s₁ = tokenize s₂ ∧ Parser.parse p₁ = Parser.parse p₂ := by
  subst hs; subst hp; exact ⟨rfl, rfl⟩

/-- Claim C8, witness at the empty source and the empty token list. -/
theorem frontend_deterministic_witness :
    tokenize "" = tokenize "" ∧
      Parser.parse (Parser.new []) = Parser.parse (Parser.new []) :=
  frontend_deterministic "" "" (Parser.new []) (Parser.new []) rfl rfl

/-- Claim C9: Span.merge is idempotent: merging a span with itself
returns it unchanged in all four fields. -/
theorem merge_idempotent (a : Span) : Span.merge a a = a := by
  cases a
  simp [Span.merge]

/-- Claim C10: the conversion from Span to SourceSpan is total: for every
span, including one with end < start, the offset is start and the length
is the truncated difference end - start, in particular 0 on underflow;
Span.len, by contrast, models an unchecked usize subtraction and is
defined exactly when start ≤ end. -/
theorem source_span_total_len_guarded (s : Span) :
    (spanToSourceSpan s).offset = s.start ∧
    (spanToSourceSpan s).length = s.«end» - s.start ∧
    (s.«end» < s.start → (spanToSourceSpan s).length = 0) ∧
    ((Span.len s).isSome = true ↔ s.start ≤ s.«end») := by
  refine ⟨rfl, rfl, ?_, ?_⟩
  · intro h
    simp [spanToSourceSpan]
    omega
  · by_cases h : s.start ≤ s.«end» <;> simp [Span.len, h]

/-- Claim C10, witness at the inverted span with start 5 and end 2, where
the conversion saturates to length 0 and len is undefined. -/
theorem source_span_total_len_guarded_witness :
    (spanToSourceSpan ⟨5, 2, 1, 1⟩).length = 0 :=
  (source_span_total_len_guarded ⟨5, 2, 1, 1⟩).2.2.1 (by decide)
